import Mathlib

/-!
Shallow embedding of the two Python scripts of this repository:

* `.../montgomery_pow_2kary/firstline.py` — the "Record Locator": reads a
  file into a list of lines, finds the first line containing the marker
  "OVERALL BEST:" and the first line containing "Timings By Test Type:",
  scans the lines strictly between those two indices for the first line
  with exactly 7 whitespace-separated fields whose third field parses as
  an integer `< 6`, and prints that line stripped, or a fixed message.

* `.../montgomery_pow_2kary/remove_lines.py` — the "Substring Filter":
  copies the input file to the output file, dropping every line that
  contains the search string.

A file's content is modelled as `List Line` where `Line := List Char` is
the text of one line as produced by Python's line iteration (each element
includes its trailing newline, except possibly the last).  File-system
effects are modelled by passing the outcome of `open`/read (`ReadResult`)
and of `open(..., 'w')` (`WriteResult`) as function-valued parameters; a
process run is summarised by its stdout lines, its stderr report lines
(Python prints uncaught-exception tracebacks to stderr and exits with
status 1) and its exit status.
-/

abbrev Line := List Char

/-- Whitespace predicate used by Python's `str.strip()` and `str.split()`
(restricted to the ASCII whitespace characters: space, tab, newline,
carriage return, vertical tab, form feed; the scripts' inputs are ASCII
benchmark logs). -/
def pyIsSpace (c : Char) : Bool :=
  c.toNat = 32 || c.toNat = 9 || c.toNat = 10 || c.toNat = 13 ||
  c.toNat = 11 || c.toNat = 12

/-- Python `str.strip()` with no argument: remove leading and trailing
whitespace. -/
def pyStrip (l : Line) : Line :=
  ((l.dropWhile pyIsSpace).reverse.dropWhile pyIsSpace).reverse

/-- Python `str.split()` with no argument: split on runs of whitespace,
discarding empty fields (so leading/trailing whitespace produces no
fields). -/
def pySplit (l : Line) : List Line :=
  (l.splitOnP pyIsSpace).filter (fun w => w ≠ [])

/-- ASCII decimal digit. -/
def pyIsDigit (c : Char) : Bool :=
  48 ≤ c.toNat && c.toNat ≤ 57

/-- Digit sequence after the first digit, with Python's underscore rule:
an underscore (code 95) must stand between two digits. `acc` is the value
of the digits consumed so far. -/
def digitsRest (acc : Nat) : Line → Option Nat
  | [] => some acc
  | c :: rest =>
    if pyIsDigit c then digitsRest (10 * acc + (c.toNat - 48)) rest
    else if c.toNat = 95 then
      match rest with
      | [] => none
      | d :: rest2 =>
        if pyIsDigit d then digitsRest (10 * acc + (d.toNat - 48)) rest2
        else none
    else none

/-- Unsigned decimal numeral: a nonempty digit sequence, possibly with
single underscores between digits. -/
def parseUDigits : Line → Option Nat
  | [] => none
  | c :: rest => if pyIsDigit c then digitsRest (c.toNat - 48) rest else none

/-- Python `int(s)` on a string: strip surrounding whitespace, allow one
leading sign (`+` is code 43, `-` is code 45), then an ASCII decimal
numeral; any other input raises `ValueError`, modelled as `none`.
(Non-ASCII decimal digits, also accepted by CPython, are outside the
model; the scanned logs are ASCII.) -/
def pyParseInt (s : Line) : Option Int :=
  match pyStrip s with
  | [] => none
  | c :: rest =>
    if c.toNat = 43 then (parseUDigits rest).map (fun n => (n : Int))
    else if c.toNat = 45 then (parseUDigits rest).map (fun n => -(n : Int))
    else (parseUDigits (c :: rest)).map (fun n => (n : Int))

/-- Python's substring test `needle in hay` on strings: `true` iff
`needle` occurs contiguously in `hay` (the empty needle occurs in every
string). -/
def containsSub (needle : Line) : Line → Bool
  | [] => needle.isEmpty
  | c :: rest => needle.isPrefixOf (c :: rest) || containsSub needle rest

/-- `next(i for i, line in enumerate(lines) if p line)`: index of the
first element satisfying `p`, or `none` (Python: `StopIteration`). -/
def findFirstIdx (p : Line → Bool) : List Line → Option Nat
  | [] => none
  | l :: rest => if p l then some 0 else (findFirstIdx p rest).map (· + 1)

/-- The start marker of `firstline.py`. -/
def startMarker : Line := "OVERALL BEST:".toList

/-- The end marker of `firstline.py`. -/
def endMarker : Line := "Timings By Test Type:".toList

/-- The per-line test of the scan loop in `firstline.py`:
`parts = line.strip().split()`, skip unless `len(parts) == 7`, skip
unless `int(parts[2])` succeeds, and match iff the parsed value is `< 6`. -/
def thirdFieldLt6 (line : Line) : Bool :=
  let parts := pySplit (pyStrip line)
  if parts.length = 7 then
    match pyParseInt (parts.getD 2 []) with
    | some v => decide (v < 6)
    | none => false
  else false

/-- The scan loop of `firstline.py` over the region between the markers:
return the first matching line stripped (`print(line.strip()); return`),
or `none` when the loop finishes. -/
def scanRegion : List Line → Option Line
  | [] => none
  | l :: rest => if thirdFieldLt6 l then some (pyStrip l) else scanRegion rest

/-- The Python slice `lines[s + 1 : e]`. -/
def regionOf (lines : List Line) (s e : Nat) : List Line :=
  (lines.drop (s + 1)).take (e - (s + 1))

/-- Outcome of the marker search and scan of `firstline.py` on the lines
of an opened file. -/
inductive LocateResult where
  | markerNotFound
  | found (l : Line)
  | noneFound
deriving DecidableEq

/-- The body of `firstline.py`'s `main` after the file has been read:
find the first line containing each marker (missing marker:
`StopIteration`, caught), then scan the slice strictly between them. -/
def locate (lines : List Line) : LocateResult :=
  match findFirstIdx (fun l => containsSub startMarker l) lines,
        findFirstIdx (fun l => containsSub endMarker l) lines with
  | some s, some e =>
    match scanRegion (regionOf lines s e) with
    | some l => .found l
    | none => .noneFound
  | _, _ => .markerNotFound

/-- Result of opening and reading a file: its lines, or the exception the
attempt raises (`FileNotFoundError`, or another `OSError`-like failure
such as a permission error, carrying its message). -/
inductive ReadResult where
  | ok (lines : List Line)
  | notFound
  | osError (msg : Line)
deriving DecidableEq

/-- Result of opening a file for writing. -/
inductive WriteResult where
  | ok
  | osError (msg : Line)
deriving DecidableEq

/-- Observable outcome of one process run: stdout lines printed, error
report lines (stderr; an uncaught Python exception prints a traceback
there), and the exit status. -/
structure ProcResult where
  stdout : List Line
  stderr : List Line
  status : Nat
deriving DecidableEq

/-- Apostrophe character (code 39), used in the scripts' f-string
messages. -/
def squoteChar : Char := Char.ofNat 39

/-- `firstline.py`: usage message. -/
def usageMsgFirstline : Line := "Usage: python3 script.py <filename>".toList

/-- `firstline.py`: message for a missing file,
`f"Error: File '{filename}' not found."`. -/
def fileNotFoundMsg (filename : Line) : Line :=
  "Error: File ".toList ++ [squoteChar] ++ filename ++ [squoteChar] ++ " not found.".toList

/-- `firstline.py`: message when a marker is missing. -/
def markerErrorMsg : Line :=
  "Error: Could not find required markers in the file.".toList

/-- `firstline.py`: fixed negative-result message. -/
def noLineFoundMsg : Line :=
  "No line found where the third field is less than 6.".toList

/-- Final line of the traceback Python prints to stderr for an uncaught
`FileNotFoundError` raised by `open`. -/
def fileNotFoundTraceback (filename : Line) : Line :=
  "FileNotFoundError: [Errno 2] No such file or directory: ".toList ++
  [squoteChar] ++ filename ++ [squoteChar]

/-- `main` of `firstline.py`.  `argv` is `sys.argv` (script name
included); `fs` gives the outcome of `open(filename, 'r')` + `readlines`.
Only `FileNotFoundError` is caught: any other read failure propagates as
an uncaught exception (traceback on stderr, exit status 1). -/
def firstlineMain (argv : List Line) (fs : Line → ReadResult) : ProcResult :=
  if argv.length ≠ 2 then ⟨[usageMsgFirstline], [], 1⟩
  else
    let filename := argv.getD 1 []
    match fs filename with
    | .notFound => ⟨[fileNotFoundMsg filename], [], 1⟩
    | .osError msg => ⟨[], [msg], 1⟩
    | .ok lines =>
      match locate lines with
      | .markerNotFound => ⟨[markerErrorMsg], [], 1⟩
      | .found l => ⟨[l], [], 0⟩
      | .noneFound => ⟨[noLineFoundMsg], [], 0⟩

/-- The filtering loop of `remove_lines.py`: write every line of the
input that does not contain `search`, in order, verbatim. -/
def remove_lines (search : Line) : List Line → List Line
  | [] => []
  | l :: rest =>
    if containsSub search l then remove_lines search rest
    else l :: remove_lines search rest

/-- Outcome of one run of `remove_lines.py`: the process observables and
the content of the destination file afterwards (`none` when it was never
opened for writing). -/
structure FilterRun where
  proc : ProcResult
  written : Option (List Line)
deriving DecidableEq

/-- `remove_lines.py`: usage message. -/
def usageMsgFilter : Line :=
  "Usage: python remove_lines.py <input_file> <search_string> <output_file>".toList

/-- `remove_lines.py`: confirmation message,
`f"Lines containing '{s}' have been written to '{out}'."`. -/
def filterDoneMsg (search outFn : Line) : Line :=
  "Lines containing ".toList ++ [squoteChar] ++ search ++ [squoteChar] ++
  " have been written to ".toList ++ [squoteChar] ++ outFn ++ [squoteChar] ++ ".".toList

/-- `main` of `remove_lines.py`.  `fsRead` is the outcome of opening and
reading the input file, `fsWrite` of opening the output file for
writing.  The script installs no exception handler, so any file-system
failure propagates as an uncaught exception: traceback on stderr, exit
status 1.  The input file is opened first (Python evaluates the `with`
openings left to right). -/
def removeLinesMain (argv : List Line) (fsRead : Line → ReadResult)
    (fsWrite : Line → WriteResult) : FilterRun :=
  if argv.length ≠ 4 then ⟨⟨[usageMsgFilter], [], 1⟩, none⟩
  else
    let inFn := argv.getD 1 []
    let search := argv.getD 2 []
    let outFn := argv.getD 3 []
    match fsRead inFn with
    | .notFound => ⟨⟨[], [fileNotFoundTraceback inFn], 1⟩, none⟩
    | .osError msg => ⟨⟨[], [msg], 1⟩, none⟩
    | .ok lines =>
      match fsWrite outFn with
      | .osError msg => ⟨⟨[], [msg], 1⟩, none⟩
      | .ok => ⟨⟨[filterDoneMsg search outFn], [], 0⟩,
               some (remove_lines search lines)⟩

/-! ### Helper lemmas -/

theorem remove_lines_eq_filter (s : Line) (lines : List Line) :
    remove_lines s lines = lines.filter (fun l => !containsSub s l) := by
  induction lines with
  | nil => rfl
  | cons a t ih =>
    simp only [remove_lines, List.filter_cons]
    cases h : containsSub s a <;> simp [h, ih]

theorem length_filter_not_add (p : Line → Bool) (lines : List Line) :
    (lines.filter (fun l => !p l)).length + (lines.filter p).length
      = lines.length := by
  induction lines with
  | nil => rfl
  | cons a t ih => cases h : p a <;> simp [List.filter_cons, h] <;> omega

theorem mem_remove_lines_not_contains {s l : Line} {lines : List Line}
    (h : l ∈ remove_lines s lines) : containsSub s l = false := by
  rw [remove_lines_eq_filter] at h
  simpa using (List.mem_filter.mp h).2

theorem remove_lines_of_no_match {s : Line} {xs : List Line}
    (h : ∀ l ∈ xs, containsSub s l = false) : remove_lines s xs = xs := by
  induction xs with
  | nil => rfl
  | cons a t ih =>
    simp [remove_lines, h a (List.mem_cons_self a t),
      ih fun l hl => h l (List.mem_cons_of_mem a hl)]

theorem containsSub_nil_needle (l : Line) : containsSub [] l = true := by
  cases l <;> simp [containsSub, List.isPrefixOf]

theorem remove_lines_nil_search (lines : List Line) :
    remove_lines [] lines = [] := by
  induction lines with
  | nil => rfl
  | cons a t ih => simp [remove_lines, containsSub_nil_needle, ih]

theorem findFirstIdx_eq_none {p : Line → Bool} {xs : List Line}
    (h : ∀ l ∈ xs, p l = false) : findFirstIdx p xs = none := by
  induction xs with
  | nil => rfl
  | cons a t ih =>
    simp [findFirstIdx, h a (List.mem_cons_self a t),
      ih fun l hl => h l (List.mem_cons_of_mem a hl)]

theorem scanRegion_eq_none {region : List Line}
    (h : ∀ l ∈ region, thirdFieldLt6 l = false) : scanRegion region = none := by
  induction region with
  | nil => rfl
  | cons a t ih =>
    simp [scanRegion, h a (List.mem_cons_self a t),
      ih fun l hl => h l (List.mem_cons_of_mem a hl)]

theorem scanRegion_first {region : List Line} {i : Nat} {l : Line}
    (hi : region[i]? = some l) (hq : thirdFieldLt6 l = true)
    (hfirst : ∀ j, j < i → ∀ l', region[j]? = some l' →
      thirdFieldLt6 l' = false) :
    scanRegion region = some (pyStrip l) := by
  induction region generalizing i with
  | nil => simp at hi
  | cons a t ih =>
    cases i with
    | zero =>
      simp only [List.getElem?_cons_zero, Option.some.injEq] at hi
      subst hi
      simp [scanRegion, hq]
    | succ n =>
      have ha : thirdFieldLt6 a = false :=
        hfirst 0 (Nat.succ_pos n) a (by simp)
      simp only [List.getElem?_cons_succ] at hi
      simp only [scanRegion, ha, Bool.false_eq_true, if_false]
      exact ih hi fun j hj l' hl' =>
        hfirst (j + 1) (Nat.succ_lt_succ hj) l' (by simpa using hl')

theorem locate_eq_of_markers {lines : List Line} {s e : Nat}
    (hs : findFirstIdx (fun l => containsSub startMarker l) lines = some s)
    (he : findFirstIdx (fun l => containsSub endMarker l) lines = some e) :
    locate lines =
      match scanRegion (regionOf lines s e) with
      | some l => LocateResult.found l
      | none => LocateResult.noneFound := by
  unfold locate
  rw [hs, he]

theorem locate_markerNotFound {lines : List Line}
    (h : (∀ l ∈ lines, containsSub startMarker l = false) ∨
         (∀ l ∈ lines, containsSub endMarker l = false)) :
    locate lines = LocateResult.markerNotFound := by
  unfold locate
  rcases h with h | h
  · rw [findFirstIdx_eq_none h]
  · rw [findFirstIdx_eq_none h]
    cases findFirstIdx (fun l => containsSub startMarker l) lines <;> rfl

theorem firstlineMain_ok (p fn : Line) (fsR : Line → ReadResult) :
    firstlineMain [p, fn] fsR =
      match fsR fn with
      | .notFound => ⟨[fileNotFoundMsg fn], [], 1⟩
      | .osError msg => ⟨[], [msg], 1⟩
      | .ok lines =>
        match locate lines with
        | .markerNotFound => ⟨[markerErrorMsg], [], 1⟩
        | .found l => ⟨[l], [], 0⟩
        | .noneFound => ⟨[noLineFoundMsg], [], 0⟩ := rfl

theorem removeLinesMain_ok (p inFn search outFn : Line)
    (fsRead : Line → ReadResult) (fsWrite : Line → WriteResult) :
    removeLinesMain [p, inFn, search, outFn] fsRead fsWrite =
      match fsRead inFn with
      | .notFound => ⟨⟨[], [fileNotFoundTraceback inFn], 1⟩, none⟩
      | .osError msg => ⟨⟨[], [msg], 1⟩, none⟩
      | .ok lines =>
        match fsWrite outFn with
        | .osError msg => ⟨⟨[], [msg], 1⟩, none⟩
        | .ok => ⟨⟨[filterDoneMsg search outFn], [], 0⟩,
                 some (remove_lines search lines)⟩ := rfl

/-! ### The claims -/

/-- C2: for every input file and every search substring, the Substring
Filter's output is exactly the ordered subsequence (`List.Sublist`, lines
kept verbatim) of input lines that do not contain the substring, and the
number of kept lines plus the number of removed lines equals the number
of input lines. -/
theorem filter_output_exact (s : Line) (lines : List Line) :
    remove_lines s lines = lines.filter (fun l => !containsSub s l) ∧
    (remove_lines s lines).Sublist lines ∧
    (∀ l ∈ remove_lines s lines, containsSub s l = false) ∧
    (remove_lines s lines).length +
      (lines.filter (fun l => containsSub s l)).length = lines.length := by
  refine ⟨remove_lines_eq_filter s lines, ?_, ?_, ?_⟩
  · rw [remove_lines_eq_filter]
    exact List.filter_sublist lines
  · intro l hl
    exact mem_remove_lines_not_contains hl
  · rw [remove_lines_eq_filter]
    exact length_filter_not_add _ lines

/-- C9: the Substring Filter is idempotent: re-running it on its own
output with the same substring removes nothing further. -/
theorem filter_idempotent (s : Line) (lines : List Line) :
    remove_lines s (remove_lines s lines) = remove_lines s lines :=
  remove_lines_of_no_match fun _ hl => mem_remove_lines_not_contains hl

/-- C8: on every non-empty input file, running the Substring Filter with
the empty search substring removes every line: the destination file is
written empty, the confirmation message is printed, and the run exits
with status 0 (valid behavior, not an error). -/
theorem filter_empty_substring (p inFn outFn : Line) (lines : List Line)
    (fsRead : Line → ReadResult) (fsWrite : Line → WriteResult)
    (hr : fsRead inFn = ReadResult.ok lines)
    (hw : fsWrite outFn = WriteResult.ok)
    (_hne : lines ≠ []) :
    removeLinesMain [p, inFn, [], outFn] fsRead fsWrite =
      ⟨⟨[filterDoneMsg [] outFn], [], 0⟩, some []⟩ := by
  simp [removeLinesMain_ok, hr, hw, remove_lines_nil_search]

/-- Witness for C8 at a concrete one-line input. -/
theorem filter_empty_substring_witness :
    removeLinesMain [[], [], [], []]
        (fun _ => ReadResult.ok [[Char.ofNat 97]]) (fun _ => WriteResult.ok) =
      ⟨⟨[filterDoneMsg [] []], [], 0⟩, some []⟩ :=
  filter_empty_substring [] [] [] [[Char.ofNat 97]] _ _ rfl rfl (by decide)

/-- C1: for every file containing both markers with at least one
qualifying line (exactly 7 whitespace-separated fields whose third field
parses as an integer `< 6`) strictly between the first start-marker line
and the first end-marker line, the Record Locator prints exactly the
first such line in file order, stripped of surrounding whitespace, and
exits with status 0. -/
theorem locator_prints_first_qualifying
    (p fn : Line) (fsR : Line → ReadResult) (lines : List Line)
    (s e i : Nat) (l : Line)
    (hfs : fsR fn = ReadResult.ok lines)
    (hs : findFirstIdx (fun x => containsSub startMarker x) lines = some s)
    (he : findFirstIdx (fun x => containsSub endMarker x) lines = some e)
    (hi : (regionOf lines s e)[i]? = some l)
    (hq : thirdFieldLt6 l = true)
    (hfirst : ∀ j, j < i → ∀ l', (regionOf lines s e)[j]? = some l' →
      thirdFieldLt6 l' = false) :
    firstlineMain [p, fn] fsR = ⟨[pyStrip l], [], 0⟩ := by
  simp [firstlineMain_ok, hfs, locate_eq_of_markers hs he,
    scanRegion_first hi hq hfirst]

/-- Witness for C1: the spec's Example 1, one non-qualifying line before
the qualifying one. -/
theorem locator_prints_first_qualifying_witness :
    firstlineMain ["x".toList, "f".toList]
        (fun _ => ReadResult.ok ["OVERALL BEST:".toList,
          "a b 7 d e f g".toList, "a b 3 d e f g".toList,
          "Timings By Test Type:".toList]) =
      ⟨[pyStrip "a b 3 d e f g".toList], [], 0⟩ :=
  locator_prints_first_qualifying "x".toList "f".toList _ _ 0 3 1
    "a b 3 d e f g".toList rfl (by decide) (by decide) (by decide) (by decide)
    (by decide)

/-- C3: for every file lacking a line that contains the start marker, or
lacking a line that contains the end marker, the Record Locator prints
the marker error message and exits with status 1. -/
theorem locator_marker_missing
    (p fn : Line) (fsR : Line → ReadResult) (lines : List Line)
    (hfs : fsR fn = ReadResult.ok lines)
    (h : (∀ l ∈ lines, containsSub startMarker l = false) ∨
         (∀ l ∈ lines, containsSub endMarker l = false)) :
    firstlineMain [p, fn] fsR = ⟨[markerErrorMsg], [], 1⟩ := by
  simp [firstlineMain_ok, hfs, locate_markerNotFound h]

/-- Witness for C3: a file with neither marker. -/
theorem locator_marker_missing_witness :
    firstlineMain [[], []] (fun _ => ReadResult.ok ["hello".toList]) =
      ⟨[markerErrorMsg], [], 1⟩ :=
  locator_marker_missing [] [] _ _ rfl (Or.inl (by decide))

/-- C4: for every file containing both markers but no qualifying line in
the scan region, the Record Locator prints exactly the literal
negative-result message and exits with status 0. -/
theorem locator_no_qualifying_message
    (p fn : Line) (fsR : Line → ReadResult) (lines : List Line) (s e : Nat)
    (hfs : fsR fn = ReadResult.ok lines)
    (hs : findFirstIdx (fun x => containsSub startMarker x) lines = some s)
    (he : findFirstIdx (fun x => containsSub endMarker x) lines = some e)
    (hnone : ∀ l ∈ regionOf lines s e, thirdFieldLt6 l = false) :
    firstlineMain [p, fn] fsR = ⟨[noLineFoundMsg], [], 0⟩ := by
  simp [firstlineMain_ok, hfs, locate_eq_of_markers hs he,
    scanRegion_eq_none hnone]

/-- Witness for C4: the spec's Example 2, an empty scan region. -/
theorem locator_no_qualifying_message_witness :
    firstlineMain [[], []]
        (fun _ => ReadResult.ok ["OVERALL BEST:".toList,
          "Timings By Test Type:".toList]) =
      ⟨[noLineFoundMsg], [], 0⟩ :=
  locator_no_qualifying_message [] [] _ _ 0 1 rfl (by decide) (by decide)
    (by decide)

/-- C5: a line whose whitespace-split field count is not 7, or whose
third field does not parse as an integer, never matches: the scan skips
it and continues with the remaining lines unchanged, and once both
markers are present the Record Locator exits with status 0 whatever such
lines the region holds (no crash, no error exit). -/
theorem locator_skips_malformed (l : Line)
    (h : (pySplit (pyStrip l)).length ≠ 7 ∨
         pyParseInt ((pySplit (pyStrip l)).getD 2 []) = none) :
    thirdFieldLt6 l = false ∧
    (∀ r1 r2, scanRegion (r1 ++ l :: r2) = scanRegion (r1 ++ r2)) ∧
    (∀ p fn fsR lines s e, fsR fn = ReadResult.ok lines →
      findFirstIdx (fun x => containsSub startMarker x) lines = some s →
      findFirstIdx (fun x => containsSub endMarker x) lines = some e →
      (firstlineMain [p, fn] fsR).status = 0) := by
  have hz : thirdFieldLt6 l =
      if (pySplit (pyStrip l)).length = 7 then
        match pyParseInt ((pySplit (pyStrip l)).getD 2 []) with
        | some v => decide (v < 6)
        | none => false
      else false := rfl
  have hfalse : thirdFieldLt6 l = false := by
    rw [hz]
    rcases h with h | h
    · rw [if_neg h]
    · rw [h]
      simp
  refine ⟨hfalse, ?_, ?_⟩
  · intro r1 r2
    induction r1 with
    | nil => simp [scanRegion, hfalse]
    | cons a t ih => cases ha : thirdFieldLt6 a <;> simp [scanRegion, ha, ih]
  · intro p fn fsR lines s e hfs hs he
    cases hscan : scanRegion (regionOf lines s e) <;>
      simp [firstlineMain_ok, hfs, locate_eq_of_markers hs he, hscan]

/-- Witness for C5: a four-field line is skipped. -/
theorem locator_skips_malformed_witness :
    thirdFieldLt6 "a b c d".toList = false :=
  (locator_skips_malformed "a b c d".toList (Or.inl (by decide))).1

/-- C10: for every file containing both markers where the first
end-marker line is at or before the first start-marker line, the scan
region is empty, so the Record Locator prints the negative-result
message and exits with status 0 (no reverse scan, no error). -/
theorem locator_end_marker_first
    (p fn : Line) (fsR : Line → ReadResult) (lines : List Line) (s e : Nat)
    (hfs : fsR fn = ReadResult.ok lines)
    (hs : findFirstIdx (fun x => containsSub startMarker x) lines = some s)
    (he : findFirstIdx (fun x => containsSub endMarker x) lines = some e)
    (hle : e ≤ s) :
    firstlineMain [p, fn] fsR = ⟨[noLineFoundMsg], [], 0⟩ := by
  have hreg : regionOf lines s e = [] := by
    unfold regionOf
    have h0 : e - (s + 1) = 0 := by omega
    rw [h0, List.take_zero]
  simp [firstlineMain_ok, hfs, locate_eq_of_markers hs he, hreg, scanRegion]

/-- Witness for C10: the end marker on the first line, the start marker
after it, a qualifying-looking line below both. -/
theorem locator_end_marker_first_witness :
    firstlineMain [[], []]
        (fun _ => ReadResult.ok ["Timings By Test Type:".toList,
          "OVERALL BEST:".toList, "a b 3 d e f g".toList]) =
      ⟨[noLineFoundMsg], [], 0⟩ :=
  locator_end_marker_first [] [] _ _ 1 0 rfl (by decide) (by decide)
    (by decide)

/-- C7: when opening the Record Locator's file fails, the run reports an
error and exits with status 1: a missing file is caught and gets the
script's explanatory message, any other open failure propagates as an
uncaught exception whose report lands on stderr. -/
theorem locator_file_access_error (p fn m : Line) (fsR : Line → ReadResult)
    (h : fsR fn = ReadResult.notFound ∨ fsR fn = ReadResult.osError m) :
    (firstlineMain [p, fn] fsR).status = 1 ∧
    (firstlineMain [p, fn] fsR).stdout ++ (firstlineMain [p, fn] fsR).stderr
      ≠ [] ∧
    (fsR fn = ReadResult.notFound →
      firstlineMain [p, fn] fsR = ⟨[fileNotFoundMsg fn], [], 1⟩) := by
  rcases h with h | h <;> simp [firstlineMain_ok, h]

/-- Witness for C7: a missing file. -/
theorem locator_file_access_error_witness :
    (firstlineMain [[], []] (fun _ => ReadResult.notFound)).status = 1 :=
  (locator_file_access_error [] [] [] _ (Or.inl rfl)).1

/-- C6: the Substring Filter's failure modes: an unreadable input file or
an unwritable output path each end the run with status 1 and an error
report on stderr (the script installs no handler, so the exception's
traceback is the report), a wrong argument count prints the usage message
and exits with status 1, and when both files open the run always
succeeds with status 0, writing exactly the filtered lines. -/
theorem filter_failure_modes (p inFn search outFn m : Line)
    (lines : List Line)
    (fsRead : Line → ReadResult) (fsWrite : Line → WriteResult) :
    (fsRead inFn = ReadResult.notFound →
      removeLinesMain [p, inFn, search, outFn] fsRead fsWrite =
        ⟨⟨[], [fileNotFoundTraceback inFn], 1⟩, none⟩) ∧
    (fsRead inFn = ReadResult.osError m →
      removeLinesMain [p, inFn, search, outFn] fsRead fsWrite =
        ⟨⟨[], [m], 1⟩, none⟩) ∧
    (fsRead inFn = ReadResult.ok lines →
      fsWrite outFn = WriteResult.osError m →
      removeLinesMain [p, inFn, search, outFn] fsRead fsWrite =
        ⟨⟨[], [m], 1⟩, none⟩) ∧
    (∀ argv : List Line, argv.length ≠ 4 →
      removeLinesMain argv fsRead fsWrite =
        ⟨⟨[usageMsgFilter], [], 1⟩, none⟩) ∧
    (fsRead inFn = ReadResult.ok lines → fsWrite outFn = WriteResult.ok →
      removeLinesMain [p, inFn, search, outFn] fsRead fsWrite =
        ⟨⟨[filterDoneMsg search outFn], [], 0⟩,
         some (remove_lines search lines)⟩) := by
  refine ⟨?_, ?_, ?_, ?_, ?_⟩
  · intro h
    simp [removeLinesMain_ok, h]
  · intro h
    simp [removeLinesMain_ok, h]
  · intro h hw
    simp [removeLinesMain_ok, h, hw]
  · intro argv hlen
    unfold removeLinesMain
    rw [if_pos hlen]
  · intro h hw
    simp [removeLinesMain_ok, h, hw]

/-- Witness for C6: a missing input file. -/
theorem filter_failure_modes_witness :
    removeLinesMain [[], [], [], []]
        (fun _ => ReadResult.notFound) (fun _ => WriteResult.ok) =
      ⟨⟨[], [fileNotFoundTraceback []], 1⟩, none⟩ :=
  (filter_failure_modes [] [] [] [] [] [] _ _).1 rfl
